import Mathlib

/-!
Verification of the mcpdbg relay protocol: a WebSocket bridge between an
MCP server process (connecting role, src/mcp-server/src/index.ts) and a
VS Code extension process (listening role).  This file gives a shallow
embedding of the protocol data model (src/mcp-server/src/protocol.ts),
the command dispatcher, the request correlator, the session state cache,
the frame handlers of both roles, and the connect-retry loop, and proves
properties of them.
-/

namespace Mcpdbg

/-! ## JSON values

JSON values as exchanged on the wire.  Numbers in the protocol are
integral (thread ids, line numbers, variables references), modelled as
Int. -/

inductive Json where
  | str (s : String)
  | num (n : Int)
  | bool (b : Bool)
  | null
  | arr (elems : List Json)
  | obj (fields : List (String × Json))

/-- Field lookup in a JSON object, first occurrence wins (as after
JSON.parse, where later duplicate keys would already have been folded). -/
def getField : List (String × Json) → String → Option Json
  | [], _ => none
  | (k, v) :: rest, key => if k = key then some v else getField rest key

/-! ## Protocol message types (protocol.ts)

Lean structures mirroring the z.infer types of the zod schemas.  The
discriminant fields (type, command, event) are fixed literals per
variant, so they live in the constructor choice, not as fields. -/

structure ExecuteLldbCommandRequest where
  lldb_command : String
  id : String
  frameId : Option Int
deriving DecidableEq

structure GetStackTraceRequest where
  threadId : Int
  id : String
deriving DecidableEq

structure GetVariablesRequest where
  variablesReference : Int
  id : String
deriving DecidableEq

structure SourceInfo where
  name : Option String
  path : Option String
deriving DecidableEq

structure StackFrame where
  id : Int
  name : String
  source : Option SourceInfo
  line : Int
  column : Int
deriving DecidableEq

structure VariableInfo where
  name : String
  value : String
  type : Option String
  variablesReference : Int
deriving DecidableEq

structure ExecuteLldbCommandResponse where
  success : Bool
  result : Option String
  error : Option String
  id : String
deriving DecidableEq

structure GetStackTraceResponse where
  success : Bool
  stackFrames : Option (List StackFrame)
  error : Option String
  id : String
deriving DecidableEq

structure GetVariablesResponse where
  success : Bool
  varList : Option (List VariableInfo)
  error : Option String
  id : String
deriving DecidableEq

structure DebuggerStoppedEvent where
  reason : String
  threadId : Int
  description : Option String
  allThreadsStopped : Option Bool
deriving DecidableEq

structure DebuggerContinuedEvent where
  threadId : Int
  allThreadsContinued : Option Bool
deriving DecidableEq

/-- requestSchema: union of the three request schemas. -/
inductive Request where
  | executeLldbCommand (r : ExecuteLldbCommandRequest)
  | getStackTrace (r : GetStackTraceRequest)
  | getVariables (r : GetVariablesRequest)
deriving DecidableEq

/-- responseSchema: union of the three response schemas. -/
inductive Response where
  | executeLldbCommand (r : ExecuteLldbCommandResponse)
  | getStackTrace (r : GetStackTraceResponse)
  | getVariables (r : GetVariablesResponse)
deriving DecidableEq

/-- eventSchema: union of the two event schemas. -/
inductive Event where
  | debuggerStopped (e : DebuggerStoppedEvent)
  | debuggerContinued (e : DebuggerContinuedEvent)
deriving DecidableEq

/-- messageSchema: union of request, response and event schemas. -/
inductive Message where
  | request (r : Request)
  | response (r : Response)
  | event (e : Event)
deriving DecidableEq

/-- The id carried by a request. -/
def Request.reqId : Request → String
  | .executeLldbCommand r => r.id
  | .getStackTrace r => r.id
  | .getVariables r => r.id

/-- The id carried by a response. -/
def Response.respId : Response → String
  | .executeLldbCommand r => r.id
  | .getStackTrace r => r.id
  | .getVariables r => r.id

/-- The success flag carried by a response. -/
def Response.respSuccess : Response → Bool
  | .executeLldbCommand r => r.success
  | .getStackTrace r => r.success
  | .getVariables r => r.success

/-- The error text carried by a response. -/
def Response.respError : Response → Option String
  | .executeLldbCommand r => r.error
  | .getStackTrace r => r.error
  | .getVariables r => r.error

/-! ## Serialization (what JSON.stringify emits for each message object)

Optional fields that are undefined are omitted from the serialized
object, exactly as JSON.stringify drops undefined-valued properties. -/

/-- Emit a key only when the optional value is present. -/
def optField (k : String) : Option Json → List (String × Json)
  | none => []
  | some v => [(k, v)]

def encodeSourceInfo (s : SourceInfo) : Json :=
  .obj (optField "name" (s.name.map .str) ++ optField "path" (s.path.map .str))

def encodeStackFrame (f : StackFrame) : Json :=
  .obj ([("id", .num f.id), ("name", .str f.name)]
    ++ optField "source" (f.source.map encodeSourceInfo)
    ++ [("line", .num f.line), ("column", .num f.column)])

def encodeVariableInfo (v : VariableInfo) : Json :=
  .obj ([("name", .str v.name), ("value", .str v.value)]
    ++ optField "type" (v.type.map .str)
    ++ [("variablesReference", .num v.variablesReference)])

def encodeRequest : Request → Json
  | .executeLldbCommand r =>
    .obj ([("type", .str "request"), ("command", .str "executeLldbCommand"),
           ("lldb_command", .str r.lldb_command), ("id", .str r.id)]
      ++ optField "frameId" (r.frameId.map .num))
  | .getStackTrace r =>
    .obj [("type", .str "request"), ("command", .str "getStackTrace"),
          ("threadId", .num r.threadId), ("id", .str r.id)]
  | .getVariables r =>
    .obj [("type", .str "request"), ("command", .str "getVariables"),
          ("variablesReference", .num r.variablesReference), ("id", .str r.id)]

def encodeResponse : Response → Json
  | .executeLldbCommand r =>
    .obj ([("type", .str "response"), ("command", .str "executeLldbCommand"),
           ("success", .bool r.success)]
      ++ optField "result" (r.result.map .str)
      ++ optField "error" (r.error.map .str)
      ++ [("id", .str r.id)])
  | .getStackTrace r =>
    .obj ([("type", .str "response"), ("command", .str "getStackTrace"),
           ("success", .bool r.success)]
      ++ optField "stackFrames" ((r.stackFrames.map fun fs => Json.arr (fs.map encodeStackFrame)))
      ++ optField "error" (r.error.map .str)
      ++ [("id", .str r.id)])
  | .getVariables r =>
    .obj ([("type", .str "response"), ("command", .str "getVariables"),
           ("success", .bool r.success)]
      ++ optField "variables" ((r.varList.map fun vs => Json.arr (vs.map encodeVariableInfo)))
      ++ optField "error" (r.error.map .str)
      ++ [("id", .str r.id)])

def encodeEvent : Event → Json
  | .debuggerStopped e =>
    .obj ([("type", .str "event"), ("event", .str "debuggerStopped"),
           ("reason", .str e.reason), ("threadId", .num e.threadId)]
      ++ optField "description" (e.description.map .str)
      ++ optField "allThreadsStopped" (e.allThreadsStopped.map .bool))
  | .debuggerContinued e =>
    .obj ([("type", .str "event"), ("event", .str "debuggerContinued"),
           ("threadId", .num e.threadId)]
      ++ optField "allThreadsContinued" (e.allThreadsContinued.map .bool))

def encodeMessage : Message → Json
  | .request r => encodeRequest r
  | .response r => encodeResponse r
  | .event e => encodeEvent e

/-! ## Parsing (zod schema semantics)

Each z.object parser requires its declared keys with the declared types,
treats absent optional keys as none, fails on a present key of the wrong
type, and ignores unknown keys (zod strips them by default).  Unions try
their members in order and return the first success. -/

/-- z.literal(v) on a string-valued field. -/
def litStr (o : List (String × Json)) (k v : String) : Bool :=
  match getField o k with
  | some (.str s) => s = v
  | _ => false

/-- z.string() on a required field. -/
def reqStr (o : List (String × Json)) (k : String) : Option String :=
  match getField o k with
  | some (.str s) => some s
  | _ => none

/-- z.number() on a required field. -/
def reqNum (o : List (String × Json)) (k : String) : Option Int :=
  match getField o k with
  | some (.num n) => some n
  | _ => none

/-- z.boolean() on a required field. -/
def reqBool (o : List (String × Json)) (k : String) : Option Bool :=
  match getField o k with
  | some (.bool b) => some b
  | _ => none

/-- z.string().optional(): absent is fine, present must be a string. -/
def optStr (o : List (String × Json)) (k : String) : Option (Option String) :=
  match getField o k with
  | none => some none
  | some (.str s) => some (some s)
  | some _ => none

/-- z.number().optional(). -/
def optNum (o : List (String × Json)) (k : String) : Option (Option Int) :=
  match getField o k with
  | none => some none
  | some (.num n) => some (some n)
  | some _ => none

/-- z.boolean().optional(). -/
def optBool (o : List (String × Json)) (k : String) : Option (Option Bool) :=
  match getField o k with
  | none => some none
  | some (.bool b) => some (some b)
  | some _ => none

def decodeSourceInfo : Json → Option SourceInfo
  | .obj o => do
    let n ← optStr o "name"
    let p ← optStr o "path"
    pure ⟨n, p⟩
  | _ => none

/-- The optional source object of a stack frame. -/
def optSource (o : List (String × Json)) (k : String) : Option (Option SourceInfo) :=
  match getField o k with
  | none => some none
  | some j => (decodeSourceInfo j).map some

def decodeStackFrame : Json → Option StackFrame
  | .obj o => do
    let i ← reqNum o "id"
    let n ← reqStr o "name"
    let s ← optSource o "source"
    let l ← reqNum o "line"
    let c ← reqNum o "column"
    pure ⟨i, n, s, l, c⟩
  | _ => none

def decodeVariableInfo : Json → Option VariableInfo
  | .obj o => do
    let n ← reqStr o "name"
    let v ← reqStr o "value"
    let t ← optStr o "type"
    let r ← reqNum o "variablesReference"
    pure ⟨n, v, t, r⟩
  | _ => none

/-- z.array(elem): parse every element in order, failing if any element
fails. -/
def decodeArr (f : Json → Option α) : List Json → Option (List α)
  | [] => some []
  | j :: js => do
    let a ← f j
    let as ← decodeArr f js
    pure (a :: as)

/-- z.array(frame).optional() on the stackFrames field. -/
def optFrames (o : List (String × Json)) (k : String) : Option (Option (List StackFrame)) :=
  match getField o k with
  | none => some none
  | some (.arr xs) => (decodeArr decodeStackFrame xs).map some
  | some _ => none

/-- z.array(variable).optional() on the variables field. -/
def optVars (o : List (String × Json)) (k : String) : Option (Option (List VariableInfo)) :=
  match getField o k with
  | none => some none
  | some (.arr xs) => (decodeArr decodeVariableInfo xs).map some
  | some _ => none

def decodeExecuteLldbCommandRequest : Json → Option ExecuteLldbCommandRequest
  | .obj o =>
    if litStr o "type" "request" && litStr o "command" "executeLldbCommand" then do
      let c ← reqStr o "lldb_command"
      let i ← reqStr o "id"
      let f ← optNum o "frameId"
      pure ⟨c, i, f⟩
    else none
  | _ => none

def decodeGetStackTraceRequest : Json → Option GetStackTraceRequest
  | .obj o =>
    if litStr o "type" "request" && litStr o "command" "getStackTrace" then do
      let t ← reqNum o "threadId"
      let i ← reqStr o "id"
      pure ⟨t, i⟩
    else none
  | _ => none

def decodeGetVariablesRequest : Json → Option GetVariablesRequest
  | .obj o =>
    if litStr o "type" "request" && litStr o "command" "getVariables" then do
      let v ← reqNum o "variablesReference"
      let i ← reqStr o "id"
      pure ⟨v, i⟩
    else none
  | _ => none

def decodeExecuteLldbCommandResponse : Json → Option ExecuteLldbCommandResponse
  | .obj o =>
    if litStr o "type" "response" && litStr o "command" "executeLldbCommand" then do
      let s ← reqBool o "success"
      let r ← optStr o "result"
      let e ← optStr o "error"
      let i ← reqStr o "id"
      pure ⟨s, r, e, i⟩
    else none
  | _ => none

def decodeGetStackTraceResponse : Json → Option GetStackTraceResponse
  | .obj o =>
    if litStr o "type" "response" && litStr o "command" "getStackTrace" then do
      let s ← reqBool o "success"
      let fs ← optFrames o "stackFrames"
      let e ← optStr o "error"
      let i ← reqStr o "id"
      pure ⟨s, fs, e, i⟩
    else none
  | _ => none

def decodeGetVariablesResponse : Json → Option GetVariablesResponse
  | .obj o =>
    if litStr o "type" "response" && litStr o "command" "getVariables" then do
      let s ← reqBool o "success"
      let vs ← optVars o "variables"
      let e ← optStr o "error"
      let i ← reqStr o "id"
      pure ⟨s, vs, e, i⟩
    else none
  | _ => none

def decodeDebuggerStoppedEvent : Json → Option DebuggerStoppedEvent
  | .obj o =>
    if litStr o "type" "event" && litStr o "event" "debuggerStopped" then do
      let r ← reqStr o "reason"
      let t ← reqNum o "threadId"
      let d ← optStr o "description"
      let a ← optBool o "allThreadsStopped"
      pure ⟨r, t, d, a⟩
    else none
  | _ => none

def decodeDebuggerContinuedEvent : Json → Option DebuggerContinuedEvent
  | .obj o =>
    if litStr o "type" "event" && litStr o "event" "debuggerContinued" then do
      let t ← reqNum o "threadId"
      let a ← optBool o "allThreadsContinued"
      pure ⟨t, a⟩
    else none
  | _ => none

/-- requestSchema: z.union tried in declaration order. -/
def decodeRequest (j : Json) : Option Request :=
  ((decodeExecuteLldbCommandRequest j).map .executeLldbCommand)
    <|> ((decodeGetStackTraceRequest j).map .getStackTrace)
    <|> ((decodeGetVariablesRequest j).map .getVariables)

/-- responseSchema: z.union tried in declaration order. -/
def decodeResponse (j : Json) : Option Response :=
  ((decodeExecuteLldbCommandResponse j).map .executeLldbCommand)
    <|> ((decodeGetStackTraceResponse j).map .getStackTrace)
    <|> ((decodeGetVariablesResponse j).map .getVariables)

/-- eventSchema: z.union tried in declaration order. -/
def decodeEvent (j : Json) : Option Event :=
  ((decodeDebuggerStoppedEvent j).map .debuggerStopped)
    <|> ((decodeDebuggerContinuedEvent j).map .debuggerContinued)

/-- messageSchema.safeParse: request, then response, then event. -/
def decodeMessage (j : Json) : Option Message :=
  ((decodeRequest j).map .request)
    <|> ((decodeResponse j).map .response)
    <|> ((decodeEvent j).map .event)

/-! ## Session state cache (index.ts, debuggerState and handleEvent)

The MCP server keeps a process-wide snapshot of the debugger, mutated
only by handleEvent and by the connection lifecycle. -/

inductive ConnectionStatus where
  | disconnected
  | connecting
  | connected
deriving DecidableEq

structure DebuggerState where
  isStopped : Bool
  currentThreadId : Int
  stopReason : String
  connectionStatus : ConnectionStatus
  connectionPort : Option Int
deriving DecidableEq

/-- The initializer of the debuggerState field of MCPDebuggerServer. -/
def initialDebuggerState : DebuggerState :=
  { isStopped := false
    currentThreadId := 1
    stopReason := ""
    connectionStatus := .disconnected
    connectionPort := none }

/-- handleEvent (index.ts lines 138-150): debuggerStopped sets
isStopped, currentThreadId and stopReason; debuggerContinued clears
isStopped and touches nothing else. -/
def handleEvent (s : DebuggerState) (e : Event) : DebuggerState :=
  match e with
  | .debuggerStopped ev =>
    { s with isStopped := true, currentThreadId := ev.threadId, stopReason := ev.reason }
  | .debuggerContinued _ =>
    { s with isStopped := false }

/-! ## Command dispatcher (extension side, src/unnamed/part_001)

The debug session capability is opaque: its three operations may fail
(a thrown Error is carried as its message string).  The dispatcher is a
pure function from the optional active session and the request to the
list of responses sent on the WebSocket. -/

structure DebugSession where
  type : String
  evalCommandOp : String → Except String String
  stackTraceOp : Int → Nat → Nat → Except String (List StackFrame)
  variablesOp : Int → Except String (List VariableInfo)

/-- The fixed error used by every handler when there is no active LLDB
session (session is absent or its type is not lldb). -/
def noActiveSessionError : String := "No active LLDB debug session"

/-- handleExecuteLldbCommand (part_001 lines 238-293). -/
def handleExecuteLldbCommand (sess : Option DebugSession)
    (r : ExecuteLldbCommandRequest) : List Response :=
  match sess with
  | none =>
    [.executeLldbCommand ⟨false, none, some noActiveSessionError, r.id⟩]
  | some s =>
    if s.type ≠ "lldb" then
      [.executeLldbCommand ⟨false, none, some noActiveSessionError, r.id⟩]
    else
      match s.evalCommandOp r.lldb_command with
      | .ok res => [.executeLldbCommand ⟨true, some res, none, r.id⟩]
      | .error e => [.executeLldbCommand ⟨false, none, some e, r.id⟩]

/-- handleGetStackTrace (part_001 lines 295-339); the session operation
is invoked with startFrame 0 and levels 100. -/
def handleGetStackTrace (sess : Option DebugSession)
    (r : GetStackTraceRequest) : List Response :=
  match sess with
  | none =>
    [.getStackTrace ⟨false, none, some noActiveSessionError, r.id⟩]
  | some s =>
    if s.type ≠ "lldb" then
      [.getStackTrace ⟨false, none, some noActiveSessionError, r.id⟩]
    else
      match s.stackTraceOp r.threadId 0 100 with
      | .ok frames => [.getStackTrace ⟨true, some frames, none, r.id⟩]
      | .error e => [.getStackTrace ⟨false, none, some e, r.id⟩]

/-- The error sent for a getVariables request whose reference is 0. -/
def invalidReferenceError : String :=
  "Please provide a valid variablesReference from a stack frame"

/-- handleGetVariables (part_001 lines 341-396): session check first,
then the reference-0 check, then the session operation. -/
def handleGetVariables (sess : Option DebugSession)
    (r : GetVariablesRequest) : List Response :=
  match sess with
  | none =>
    [.getVariables ⟨false, none, some noActiveSessionError, r.id⟩]
  | some s =>
    if s.type ≠ "lldb" then
      [.getVariables ⟨false, none, some noActiveSessionError, r.id⟩]
    else
      if r.variablesReference = 0 then
        [.getVariables ⟨false, none, some invalidReferenceError, r.id⟩]
      else
        match s.variablesOp r.variablesReference with
        | .ok vs => [.getVariables ⟨true, some vs, none, r.id⟩]
        | .error e => [.getVariables ⟨false, none, some e, r.id⟩]

/-- handleRequest (part_001 lines 224-236): dispatch on the command. -/
def handleRequest (sess : Option DebugSession) : Request → List Response
  | .executeLldbCommand r => handleExecuteLldbCommand sess r
  | .getStackTrace r => handleGetStackTrace sess r
  | .getVariables r => handleGetVariables sess r

/-- True when no active LLDB session exists: no session at all, or the
active session has a different type. -/
def noActiveLldb : Option DebugSession → Bool
  | none => true
  | some s => s.type ≠ "lldb"

/-! ## Request correlator (index.ts, responseHandlers and sendRequest)

State of the pending-request table, with a millisecond clock to express
the setTimeout behavior.  Each pending entry keeps the id and the
absolute deadline clock + 30000 registered by sendRequest.  The
resolved list records, in order, every resolution or rejection a caller
continuation ever receives. -/

/-- The fixed per-request window: setTimeout(..., 30000). -/
def requestTimeoutMs : Nat := 30000

inductive ResolutionKind where
  | success
  | failure
  | timedOut
deriving DecidableEq

structure CorrState where
  clock : Nat
  pending : List (String × Nat)
  resolved : List (String × ResolutionKind)
deriving DecidableEq

/-- sendRequest registration (index.ts lines 171-186): park a handler
keyed by the fresh id, with a 30000 ms timeout. -/
def registerRequest (s : CorrState) (rid : String) : CorrState :=
  { s with pending := s.pending ++ [(rid, s.clock + requestTimeoutMs)] }

/-- The onmessage response branch (index.ts lines 88-93): if a handler
is registered for the id, it runs (clearing the timeout, resolving on
success and rejecting otherwise) and the entry is deleted; a response
with no live handler is discarded. -/
def deliverResponse (s : CorrState) (rid : String) (ok : Bool) : CorrState :=
  if s.pending.any (fun p => p.1 = rid) then
    { s with
      pending := s.pending.filter (fun p => ¬ p.1 = rid)
      resolved := s.resolved ++ [(rid, if ok then .success else .failure)] }
  else s

/-- One millisecond of time: timers whose deadline has been reached fire
(deleting the entry and rejecting with the timeout error); entries whose
deadline is still ahead stay. -/
def tickMs (s : CorrState) : CorrState :=
  { clock := s.clock + 1
    pending := s.pending.filter (fun p => ¬ p.2 ≤ s.clock + 1)
    resolved := s.resolved
      ++ (s.pending.filter (fun p => p.2 ≤ s.clock + 1)).map (fun p => (p.1, .timedOut)) }

inductive CorrEvent where
  | tickE
  | respE (rid : String) (ok : Bool)
  | sendE (rid : String)
deriving DecidableEq

def corrStep (s : CorrState) : CorrEvent → CorrState
  | .tickE => tickMs s
  | .respE rid ok => deliverResponse s rid ok
  | .sendE rid => registerRequest s rid

def corrRun (s : CorrState) (es : List CorrEvent) : CorrState :=
  es.foldl corrStep s

/-- Number of live pending entries for an id. -/
def pendCount (s : CorrState) (rid : String) : Nat :=
  s.pending.countP (fun p => p.1 = rid)

/-- Number of resolutions (of any kind) ever delivered for an id. -/
def resCount (s : CorrState) (rid : String) : Nat :=
  s.resolved.countP (fun p => p.1 = rid)

/-- Iterated milliseconds. -/
def ticksMs (n : Nat) (s : CorrState) : CorrState :=
  corrRun s (List.replicate n .tickE)

/-! ## Frame handlers of the two roles (message codec boundary)

An inbound frame either is not JSON at all (JSON.parse throws) or
carries a JSON value, which messageSchema.safeParse then accepts or
rejects. -/

inductive Frame where
  | notJson (raw : String)
  | jsonVal (j : Json)

/-- True when the frame fails the codec: unparsable text or a JSON value
rejected by messageSchema. -/
def malformed : Frame → Bool
  | .notJson _ => true
  | .jsonVal j => (decodeMessage j).isNone

/-- What the listening role writes back on a single inbound frame: a
structural error object with discriminant "error" (never a protocol
response), or protocol responses produced by the dispatcher. -/
inductive ServerSend where
  | structuralError (err : String)
  | responseMsg (r : Response)
deriving DecidableEq

/-- The ws message handler of startWebSocketServer (part_001 lines
146-178): parse, validate, dispatch requests; on a schema failure send a
type error object and keep serving; on a parse exception send a type
error object via the catch; never touch the client set.  Returns the
frames sent to the sender and the client set afterwards. -/
def serverHandleFrame (sess : Option DebugSession) (clients : List Nat)
    (f : Frame) : List ServerSend × List Nat :=
  match f with
  | .notJson _ => ([.structuralError "Failed to process message"], clients)
  | .jsonVal j =>
    match decodeMessage j with
    | none => ([.structuralError "Invalid message format"], clients)
    | some (.request req) => ((handleRequest sess req).map .responseMsg, clients)
    | some _ => ([], clients)

/-- The ws onmessage handler of connectToExtension (index.ts lines
81-101): parse and validate; responses go to the correlator, events to
the session state cache, anything else — including every malformed
frame — is dropped silently inside the try/catch. -/
def clientHandleFrame (corr : CorrState) (dbg : DebuggerState)
    (f : Frame) : CorrState × DebuggerState :=
  match f with
  | .notJson _ => (corr, dbg)
  | .jsonVal j =>
    match decodeMessage j with
    | none => (corr, dbg)
    | some (.response r) => (deliverResponse corr r.respId r.respSuccess, dbg)
    | some (.event e) => (corr, handleEvent dbg e)
    | some (.request _) => (corr, dbg)

/-! ## Connect retry loop (index.ts, connectToExtension lines 48-136)

Each attempt either opens (onopen), fails asynchronously (onerror or the
5000 ms connection timer: the promise created inside the try block is
RETURNED, not awaited, so its rejection escapes connectToExtension
without entering the catch), or throws synchronously from the WebSocket
constructor (the only path that reaches the catch and its retry logic).
The environment assigns an outcome to each attempt number. -/

inductive AttemptOutcome where
  | opened
  | asyncErr
  | ctorThrow
deriving DecidableEq

def connectMaxRetries : Nat := 5

def retryDelayMs : Nat := 2000

inductive ConnectResult where
  | connected (retryCountAfter : Nat)
  | rejectedAsync (retryCountAt : Nat)
  | exhausted (retryCountAt : Nat)
deriving DecidableEq

structure ConnectRun where
  result : ConnectResult
  attemptsMade : Nat
  delayMsTotal : Nat
deriving DecidableEq

/-- The inner recursive connect closure.  The fuel argument equals
connectMaxRetries - retryCount and makes the recursion structural; the
retryCount >= maxRetries guard of the source corresponds to fuel 0.
On opened: onopen resets retryCount to 0 and resolves.  On asyncErr:
the rejection of the returned (un-awaited) promise ends the whole call
with no retry.  On ctorThrow: the catch increments retryCount, and
either waits 2000 ms and recurses, or rethrows. -/
def connectLoop (env : Nat → AttemptOutcome) : Nat → Nat → ConnectRun
  | _, 0 => ⟨.exhausted connectMaxRetries, 0, 0⟩
  | retryCount, fuel + 1 =>
    match env retryCount with
    | .opened => ⟨.connected 0, 1, 0⟩
    | .asyncErr => ⟨.rejectedAsync retryCount, 1, 0⟩
    | .ctorThrow =>
      if retryCount + 1 < connectMaxRetries then
        let rest := connectLoop env (retryCount + 1) fuel
        ⟨rest.result, rest.attemptsMade + 1, rest.delayMsTotal + retryDelayMs⟩
      else
        ⟨.exhausted (retryCount + 1), 1, 0⟩

/-- connectToExtension: run the connect closure from retryCount 0. -/
def connectToExtension (env : Nat → AttemptOutcome) : ConnectRun :=
  connectLoop env 0 connectMaxRetries

/-- The connect environment of the retry scenario of the spec: the
endpoint refuses the first two attempts (asynchronous failures, as a
refused TCP connection or a 5000 ms connection timeout always is) and
accepts the third. -/
def availableOnThirdAttempt : Nat → AttemptOutcome :=
  fun i => if i < 2 then .asyncErr else .opened

/-! ## Counting helpers for the correlator -/

theorem countP_split (l : List α) (p q : α → Bool) :
    l.countP p = l.countP (fun a => p a && q a) + l.countP (fun a => p a && ! q a) := by
  induction l with
  | nil => simp
  | cons a l ih =>
    by_cases hp : p a <;> by_cases hq : q a <;>
      simp [List.countP_cons, hp, hq, ih] <;> omega

theorem filter_comm (l : List α) (p q : α → Bool) :
    (l.filter q).filter p = (l.filter p).filter q := by
  rw [List.filter_filter, List.filter_filter]
  exact List.filter_congr fun a _ => Bool.and_comm (p a) (q a)

/-- A tick preserves, for every id, the total number of live entries
plus resolutions: every entry it deletes turns into exactly one timeout
rejection. -/
theorem tickMs_conservation (s : CorrState) (rid : String) :
    pendCount (tickMs s) rid + resCount (tickMs s) rid
      = pendCount s rid + resCount s rid := by
  simp only [pendCount, resCount, tickMs, List.countP_append, List.countP_filter,
    List.countP_map, Function.comp_def, decide_not]
  rw [countP_split s.pending (fun p => decide (p.1 = rid))
    (fun p => decide (p.2 ≤ s.clock + 1))]
  omega

/-- Delivering a response for a live id deletes its entry and records
exactly one resolution. -/
theorem deliverResponse_live (s : CorrState) (rid : String) (ok : Bool)
    (hp : 0 < pendCount s rid) :
    pendCount (deliverResponse s rid ok) rid = 0
    ∧ resCount (deliverResponse s rid ok) rid = resCount s rid + 1 := by
  have hmem : ∃ p ∈ s.pending, p.1 = rid := by
    simpa [pendCount, List.countP_pos_iff] using hp
  have hAny : s.pending.any (fun p => p.1 = rid) = true := by
    simpa [List.any_eq_true] using hmem
  constructor
  · simp [deliverResponse, hAny, pendCount, List.countP_filter, decide_not]
  · simp [deliverResponse, hAny, resCount, List.countP_append]

/-- Delivering a response whose id has no live entry is a no-op: the
response is discarded without resolving or rejecting anything. -/
theorem deliverResponse_dead (s : CorrState) (rid : String) (ok : Bool)
    (hp : pendCount s rid = 0) :
    deliverResponse s rid ok = s := by
  have hAny : s.pending.any (fun p => p.1 = rid) = false := by
    rw [← Bool.not_eq_true, List.any_eq_true]
    intro ⟨p, hpmem, hpk⟩
    have : 0 < pendCount s rid := List.countP_pos_iff.mpr ⟨p, hpmem, hpk⟩
    omega
  simp [deliverResponse, hAny]

/-- Delivering a response for a different id leaves both counts of an
id untouched. -/
theorem deliverResponse_other (s : CorrState) (rid rid2 : String) (ok : Bool)
    (hr : rid2 ≠ rid) :
    pendCount (deliverResponse s rid2 ok) rid = pendCount s rid
    ∧ resCount (deliverResponse s rid2 ok) rid = resCount s rid := by
  unfold deliverResponse
  split
  · constructor
    · have hc : ∀ a : String × Nat,
          ((decide (a.1 = rid) && decide (¬ a.1 = rid2)) = true)
            ↔ (decide (a.1 = rid) = true) := by
        intro a
        by_cases hk : a.1 = rid
        · have hk2 : ¬ rid = rid2 := fun hh => hr hh.symm
          simp [hk, hk2]
        · simp [hk]
      simp only [pendCount, List.countP_filter]
      exact List.countP_congr fun a _ => hc a
    · simp [resCount, List.countP_append, List.countP_cons, hr]
  · exact ⟨rfl, rfl⟩

/-- Registering a different id leaves the counts of an id untouched. -/
theorem registerRequest_other (s : CorrState) (rid rid2 : String)
    (hr : rid2 ≠ rid) :
    pendCount (registerRequest s rid2) rid = pendCount s rid
    ∧ resCount (registerRequest s rid2) rid = resCount s rid := by
  constructor
  · simp [registerRequest, pendCount, List.countP_append, List.countP_cons, hr]
  · rfl

/-- One correlator step never pushes the live-plus-resolved total for an
id above one, provided the step is not a fresh send of that id. -/
theorem corrStep_once_inv (s : CorrState) (rid : String) (e : CorrEvent)
    (hne : e ≠ .sendE rid)
    (h : pendCount s rid + resCount s rid ≤ 1) :
    pendCount (corrStep s e) rid + resCount (corrStep s e) rid ≤ 1 := by
  cases e with
  | tickE =>
    simpa only [corrStep, tickMs_conservation] using h
  | respE rid2 ok =>
    by_cases hr : rid2 = rid
    · rw [hr]
      by_cases hp : 0 < pendCount s rid
      · obtain ⟨h1, h2⟩ := deliverResponse_live s rid ok hp
        simp only [corrStep]
        omega
      · have hp0 : pendCount s rid = 0 := by omega
        simp only [corrStep, deliverResponse_dead s rid ok hp0]
        omega
    · obtain ⟨h1, h2⟩ := deliverResponse_other s rid rid2 ok hr
      simp only [corrStep]
      omega
  | sendE rid2 =>
    have hr : rid2 ≠ rid := fun hh => hne (by rw [hh])
    obtain ⟨h1, h2⟩ := registerRequest_other s rid rid2 hr
    simp only [corrStep]
    omega

/-- Over any trace that does not register the id afresh, the
live-plus-resolved total for that id stays at most one. -/
theorem corrRun_once_inv (rid : String) :
    ∀ (es : List CorrEvent) (s : CorrState),
    CorrEvent.sendE rid ∉ es →
    pendCount s rid + resCount s rid ≤ 1 →
    pendCount (corrRun s es) rid + resCount (corrRun s es) rid ≤ 1 := by
  intro es
  induction es with
  | nil => intro s _ h; exact h
  | cons e es ih =>
    intro s hs h
    have hne : e ≠ .sendE rid := fun hh => hs (by rw [hh]; exact List.mem_cons_self ..)
    have hs2 : CorrEvent.sendE rid ∉ es := fun hh => hs (List.mem_cons_of_mem _ hh)
    exact ih (corrStep s e) hs2 (corrStep_once_inv s rid e hne h)

theorem ticksMs_front (n : Nat) (s : CorrState) :
    ticksMs (n + 1) s = ticksMs n (tickMs s) := by
  simp [ticksMs, corrRun, List.replicate_succ, corrStep]

theorem ticksMs_back (n : Nat) (s : CorrState) :
    ticksMs (n + 1) s = tickMs (ticksMs n s) := by
  simp [ticksMs, corrRun, List.replicate_succ', List.foldl_append, corrStep]

/-- Counting entries of an id inside a filtered table, as a filter of
the entries of that id. -/
theorem countP_key_filter (l : List (String × Nat)) (rid : String)
    (q : String × Nat → Bool) :
    (l.filter q).countP (fun p => p.1 = rid)
      = ((l.filter (fun p => p.1 = rid)).filter q).length := by
  rw [List.countP_eq_length_filter, filter_comm]

/-- Turning table entries into timeout rejections preserves ids. -/
theorem countP_key_map_timedOut (l : List (String × Nat)) (rid : String) :
    ((l.map (fun p => (p.1, ResolutionKind.timedOut))).countP (fun p => p.1 = rid))
      = l.countP (fun p => p.1 = rid) := by
  rw [List.countP_map]
  rfl

/-- While the deadline of the single live entry of an id lies ahead,
ticking keeps the entry live, resolves nothing for the id, and advances
the clock. -/
theorem ticksMs_keep (rid : String) (d : Nat) :
    ∀ (k : Nat) (s : CorrState),
    s.pending.filter (fun p => p.1 = rid) = [(rid, d)] →
    resCount s rid = 0 →
    s.clock + k < d →
    (ticksMs k s).pending.filter (fun p => p.1 = rid) = [(rid, d)]
    ∧ resCount (ticksMs k s) rid = 0
    ∧ (ticksMs k s).clock = s.clock + k := by
  intro k
  induction k with
  | zero => intro s h1 h2 _; exact ⟨h1, h2, rfl⟩
  | succ k ih =>
    intro s h1 h2 h3
    rw [ticksMs_front]
    have hd : ¬ d ≤ s.clock + 1 := by omega
    have hkeep : (tickMs s).pending.filter (fun p => p.1 = rid) = [(rid, d)] := by
      simp only [tickMs]
      rw [filter_comm, h1]
      simp [List.filter, hd]
    have hres : resCount (tickMs s) rid = 0 := by
      simp only [resCount, tickMs, List.countP_append, countP_key_map_timedOut,
        countP_key_filter, h1]
      simp only [resCount] at h2
      simp [List.filter, hd, h2]
    have hcl : (tickMs s).clock = s.clock + 1 := rfl
    obtain ⟨k1, k2, k3⟩ := ih (tickMs s) hkeep hres (by rw [hcl]; omega)
    exact ⟨k1, k2, by rw [k3, hcl]; omega⟩

/-! ## Theorems -/

/-- Claim C7: folding handleEvent over debuggerStopped(1, breakpoint),
debuggerContinued(1), debuggerStopped(2, exception) from the initial
state yields isStopped true, currentThreadId 2, stopReason exception;
in general debuggerStopped sets isStopped and updates currentThreadId
and stopReason, and debuggerContinued clears isStopped. -/
theorem c7_session_state_cache_fold :
    (let final :=
      [Event.debuggerStopped ⟨"breakpoint", 1, none, none⟩,
       Event.debuggerContinued ⟨1, none⟩,
       Event.debuggerStopped ⟨"exception", 2, none, none⟩].foldl handleEvent
        initialDebuggerState
     final.isStopped = true ∧ final.currentThreadId = 2 ∧ final.stopReason = "exception")
    ∧ (∀ (s : DebuggerState) (ev : DebuggerStoppedEvent),
        handleEvent s (.debuggerStopped ev)
          = { s with isStopped := true, currentThreadId := ev.threadId,
                     stopReason := ev.reason })
    ∧ (∀ (s : DebuggerState) (ev : DebuggerContinuedEvent),
        handleEvent s (.debuggerContinued ev) = { s with isStopped := false }) :=
  ⟨⟨rfl, rfl, rfl⟩, fun _ _ => rfl, fun _ _ => rfl⟩

/-- Claim C2: for every accepted request and every session state, the
dispatcher emits exactly one response, and its id equals the id of the
triggering request; the handlers are total functions, so no exception
escapes without a response. -/
theorem c2_dispatcher_exactly_one_response (sess : Option DebugSession) (req : Request) :
    ∃ resp : Response, handleRequest sess req = [resp] ∧ resp.respId = req.reqId := by
  cases req <;> cases sess <;>
    simp only [handleRequest, handleExecuteLldbCommand, handleGetStackTrace,
      handleGetVariables] <;>
    (repeat' split) <;> exact ⟨_, rfl, rfl⟩

/-- Claim C5: with no active LLDB session (none, or a session of a
different type) every command variant answers with success false and the
fixed no-active-session error, carrying the request id; and the outcome
never consults any of the three session operations, whose choice is
irrelevant to the result. -/
theorem c5_no_session_uniform_failure (sess : Option DebugSession) (req : Request)
    (hna : noActiveLldb sess = true) :
    (∃ resp : Response, handleRequest sess req = [resp]
      ∧ resp.respSuccess = false
      ∧ resp.respError = some noActiveSessionError
      ∧ resp.respId = req.reqId)
    ∧ (∀ (t : String) (f f' : String → Except String String)
        (g g' : Int → Nat → Nat → Except String (List StackFrame))
        (v v' : Int → Except String (List VariableInfo)),
        t ≠ "lldb" →
        handleRequest (some ⟨t, f, g, v⟩) req = handleRequest (some ⟨t, f', g', v'⟩) req) := by
  constructor
  · cases sess with
    | none => cases req <;> exact ⟨_, rfl, rfl, rfl, rfl⟩
    | some s =>
      have ht : s.type ≠ "lldb" := by simpa [noActiveLldb] using hna
      cases req <;>
        simp only [handleRequest, handleExecuteLldbCommand, handleGetStackTrace,
          handleGetVariables, if_pos ht] <;>
        exact ⟨_, rfl, rfl, rfl, rfl⟩
  · intro t f f' g g' v v' ht
    cases req <;>
      simp only [handleRequest, handleExecuteLldbCommand, handleGetStackTrace,
        handleGetVariables, if_pos ht]

/-- Witness for claim C5 at a concrete input: no session at all and a
getVariables request. -/
theorem c5_no_session_uniform_failure_witness :
    noActiveLldb none = true
    ∧ ((∃ resp : Response,
          handleRequest none (.getVariables ⟨5, "w5"⟩) = [resp]
          ∧ resp.respSuccess = false
          ∧ resp.respError = some noActiveSessionError
          ∧ resp.respId = (Request.getVariables ⟨5, "w5"⟩).reqId)
      ∧ (∀ (t : String) (f f' : String → Except String String)
          (g g' : Int → Nat → Nat → Except String (List StackFrame))
          (v v' : Int → Except String (List VariableInfo)),
          t ≠ "lldb" →
          handleRequest (some ⟨t, f, g, v⟩) (.getVariables ⟨5, "w5"⟩)
            = handleRequest (some ⟨t, f', g', v'⟩) (.getVariables ⟨5, "w5"⟩))) :=
  ⟨rfl, c5_no_session_uniform_failure none (.getVariables ⟨5, "w5"⟩) rfl⟩

/-- Claim C6 counterexample: a getVariables request with reference 0
arriving while no session is active is answered with the
no-active-session error, not with the error instructing the caller to
supply a concrete reference, so the claim as stated fails. -/
theorem c6_counterexample :
    handleRequest none (.getVariables ⟨0, "req0"⟩)
      = [.getVariables ⟨false, none, some noActiveSessionError, "req0"⟩]
    ∧ noActiveSessionError ≠ invalidReferenceError :=
  ⟨rfl, by decide⟩

/-- Claim C6 (amended): a getVariables request with reference 0 is
always answered success false without ever invoking the variables
operation; when an active LLDB session exists the error is the one
instructing the caller to supply a concrete reference from a prior
stack-frame or variable result. -/
theorem c6_getvariables_zero_amended (sess : Option DebugSession)
    (r : GetVariablesRequest) (h0 : r.variablesReference = 0) :
    (∃ resp : Response, handleGetVariables sess r = [resp] ∧ resp.respSuccess = false)
    ∧ (∀ s : DebugSession, s.type = "lldb" →
        handleGetVariables (some s) r
          = [.getVariables ⟨false, none, some invalidReferenceError, r.id⟩])
    ∧ (∀ (t : String) (f : String → Except String String)
        (g : Int → Nat → Nat → Except String (List StackFrame))
        (v v' : Int → Except String (List VariableInfo)),
        handleGetVariables (some ⟨t, f, g, v⟩) r
          = handleGetVariables (some ⟨t, f, g, v'⟩) r) := by
  refine ⟨?_, ?_, ?_⟩
  · cases sess with
    | none => exact ⟨_, rfl, rfl⟩
    | some s =>
      by_cases ht : s.type ≠ "lldb"
      · exact ⟨.getVariables ⟨false, none, some noActiveSessionError, r.id⟩,
          by simp only [handleGetVariables, if_pos ht], rfl⟩
      · exact ⟨.getVariables ⟨false, none, some invalidReferenceError, r.id⟩,
          by simp only [handleGetVariables, if_neg ht, if_pos h0], rfl⟩
  · intro s hs
    have ht : ¬ s.type ≠ "lldb" := by simp [hs]
    simp only [handleGetVariables, if_neg ht, if_pos h0]
  · intro t f g v v'
    by_cases ht : t ≠ "lldb" <;>
      simp only [handleGetVariables, if_pos, if_neg, ht, if_pos h0, ite_not]

/-- Witness for the amended claim C6 at reference 0 with no session. -/
theorem c6_getvariables_zero_amended_witness :
    ((⟨0, "w6"⟩ : GetVariablesRequest).variablesReference = 0)
    ∧ ((∃ resp : Response, handleGetVariables none ⟨0, "w6"⟩ = [resp]
          ∧ resp.respSuccess = false)
      ∧ (∀ s : DebugSession, s.type = "lldb" →
          handleGetVariables (some s) ⟨0, "w6"⟩
            = [.getVariables ⟨false, none, some invalidReferenceError, "w6"⟩])
      ∧ (∀ (t : String) (f : String → Except String String)
          (g : Int → Nat → Nat → Except String (List StackFrame))
          (v v' : Int → Except String (List VariableInfo)),
          handleGetVariables (some ⟨t, f, g, v⟩) ⟨0, "w6"⟩
            = handleGetVariables (some ⟨t, f, g, v'⟩) ⟨0, "w6"⟩)) :=
  ⟨rfl, c6_getvariables_zero_amended none ⟨0, "w6"⟩ rfl⟩

/-- Claim C10: in handleGetVariables the active-session check precedes
the reference-0 check: with no session the answer is the
no-active-session error (which differs from the invalid-reference
error), with an active LLDB session it is the invalid-reference error,
and in both cases the variables operation is never consulted. -/
theorem c10_session_check_precedes_reference_check (r : GetVariablesRequest)
    (h0 : r.variablesReference = 0) :
    handleGetVariables none r
      = [.getVariables ⟨false, none, some noActiveSessionError, r.id⟩]
    ∧ noActiveSessionError ≠ invalidReferenceError
    ∧ (∀ s : DebugSession, s.type = "lldb" →
        handleGetVariables (some s) r
          = [.getVariables ⟨false, none, some invalidReferenceError, r.id⟩])
    ∧ (∀ (t : String) (f : String → Except String String)
        (g : Int → Nat → Nat → Except String (List StackFrame))
        (v v' : Int → Except String (List VariableInfo)),
        handleGetVariables (some ⟨t, f, g, v⟩) r
          = handleGetVariables (some ⟨t, f, g, v'⟩) r) := by
  refine ⟨rfl, by decide, ?_, ?_⟩
  · intro s hs
    have ht : ¬ s.type ≠ "lldb" := by simp [hs]
    simp only [handleGetVariables, if_neg ht, if_pos h0]
  · intro t f g v v'
    by_cases ht : t ≠ "lldb" <;>
      simp only [handleGetVariables, if_pos, if_neg, ht, if_pos h0, ite_not]

/-- Witness for claim C10 at a concrete reference-0 request. -/
theorem c10_session_check_precedes_reference_check_witness :
    ((⟨0, "w10"⟩ : GetVariablesRequest).variablesReference = 0)
    ∧ (handleGetVariables none ⟨0, "w10"⟩
        = [.getVariables ⟨false, none, some noActiveSessionError, "w10"⟩]
      ∧ noActiveSessionError ≠ invalidReferenceError
      ∧ (∀ s : DebugSession, s.type = "lldb" →
          handleGetVariables (some s) ⟨0, "w10"⟩
            = [.getVariables ⟨false, none, some invalidReferenceError, "w10"⟩])
      ∧ (∀ (t : String) (f : String → Except String String)
          (g : Int → Nat → Nat → Except String (List StackFrame))
          (v v' : Int → Except String (List VariableInfo)),
          handleGetVariables (some ⟨t, f, g, v⟩) ⟨0, "w10"⟩
            = handleGetVariables (some ⟨t, f, g, v'⟩) ⟨0, "w10"⟩)) :=
  ⟨rfl, c10_session_check_precedes_reference_check ⟨0, "w10"⟩ rfl⟩

/-- Claim C4 (code bug): with an endpoint available only on the third
attempt — well within the budget of 5 — connectToExtension does NOT
retry: the rejection of the un-awaited inner promise escapes the catch
block, so the call rejects after a single attempt, with no 2000 ms
delay, never reaching the successful third attempt. -/
theorem c4_async_failure_bypasses_retry :
    connectToExtension availableOnThirdAttempt
      = ⟨.rejectedAsync 0, 1, 0⟩
    ∧ (∀ n, connectToExtension availableOnThirdAttempt ≠ ⟨.connected 0, n, 2 * retryDelayMs⟩)
    ∧ (connectLoop availableOnThirdAttempt 2 (connectMaxRetries - 2)).result
      = .connected 0 :=
  by
  have h1 : connectToExtension availableOnThirdAttempt = ⟨.rejectedAsync 0, 1, 0⟩ := rfl
  refine ⟨h1, ?_, rfl⟩
  intro n h
  rw [h1] at h
  simp at h

/-- Claim C1: a caller continuation is resolved or rejected at most
once over any trace of responses, timeouts and other sends: delivering
a matching response while the entry is live removes the entry and
records exactly one resolution, a response whose id has no live entry
is discarded unchanged, and the live-plus-resolved total for the id
never exceeds one. -/
theorem c1_correlator_resolution_at_most_once (s : CorrState) (rid : String)
    (es : List CorrEvent)
    (hs : CorrEvent.sendE rid ∉ es)
    (h : pendCount s rid + resCount s rid ≤ 1) :
    resCount (corrRun s es) rid ≤ 1
    ∧ (∀ (s2 : CorrState) (ok : Bool), 0 < pendCount s2 rid →
        pendCount (deliverResponse s2 rid ok) rid = 0
        ∧ resCount (deliverResponse s2 rid ok) rid = resCount s2 rid + 1)
    ∧ (∀ (s2 : CorrState) (ok : Bool), pendCount s2 rid = 0 →
        deliverResponse s2 rid ok = s2) := by
  refine ⟨?_, fun s2 ok hp => deliverResponse_live s2 rid ok hp,
    fun s2 ok hp => deliverResponse_dead s2 rid ok hp⟩
  have := corrRun_once_inv rid es s hs h
  omega

/-- Witness for claim C1: id a, one live entry, a trace with a
duplicate response. -/
theorem c1_correlator_resolution_at_most_once_witness :
    (CorrEvent.sendE "a" ∉
        [CorrEvent.respE "a" true, CorrEvent.respE "a" false, CorrEvent.tickE])
    ∧ pendCount ⟨0, [("a", 30000)], []⟩ "a" + resCount ⟨0, [("a", 30000)], []⟩ "a" ≤ 1
    ∧ (resCount (corrRun ⟨0, [("a", 30000)], []⟩
          [CorrEvent.respE "a" true, CorrEvent.respE "a" false, CorrEvent.tickE]) "a" ≤ 1
      ∧ (∀ (s2 : CorrState) (ok : Bool), 0 < pendCount s2 "a" →
          pendCount (deliverResponse s2 "a" ok) "a" = 0
          ∧ resCount (deliverResponse s2 "a" ok) "a" = resCount s2 "a" + 1)
      ∧ (∀ (s2 : CorrState) (ok : Bool), pendCount s2 "a" = 0 →
          deliverResponse s2 "a" ok = s2)) :=
  ⟨by decide, by decide,
    c1_correlator_resolution_at_most_once ⟨0, [("a", 30000)], []⟩ "a"
      [CorrEvent.respE "a" true, CorrEvent.respE "a" false, CorrEvent.tickE]
      (by decide) (by decide)⟩

/-- Claim C3: a request registered by sendRequest while its id is fresh
is, in the absence of any response, still unresolved strictly before
30000 ms have elapsed, and at exactly 30000 ms the entry is removed and
the continuation receives exactly one rejection, a timeout. -/
theorem c3_timeout_after_exact_window (s : CorrState) (rid : String)
    (hp : pendCount s rid = 0) (hr : resCount s rid = 0) :
    (∀ n, n < requestTimeoutMs →
      pendCount (ticksMs n (registerRequest s rid)) rid = 1
      ∧ resCount (ticksMs n (registerRequest s rid)) rid = 0)
    ∧ pendCount (ticksMs requestTimeoutMs (registerRequest s rid)) rid = 0
    ∧ resCount (ticksMs requestTimeoutMs (registerRequest s rid)) rid = 1
    ∧ (rid, ResolutionKind.timedOut)
        ∈ (ticksMs requestTimeoutMs (registerRequest s rid)).resolved := by
  have hfe : s.pending.filter (fun p => p.1 = rid) = [] := by
    rw [← List.length_eq_zero]
    rw [← List.countP_eq_length_filter]
    exact hp
  have h1 : (registerRequest s rid).pending.filter (fun p => p.1 = rid)
      = [(rid, s.clock + requestTimeoutMs)] := by
    simp [registerRequest, List.filter_append, hfe, List.filter]
  have h2 : resCount (registerRequest s rid) rid = 0 := hr
  have hcl : (registerRequest s rid).clock = s.clock := rfl
  constructor
  · intro n hn
    obtain ⟨k1, k2, _⟩ := ticksMs_keep rid (s.clock + requestTimeoutMs) n
      (registerRequest s rid) h1 h2 (by rw [hcl]; omega)
    refine ⟨?_, k2⟩
    rw [pendCount, List.countP_eq_length_filter, k1]
    rfl
  · have hsplit : requestTimeoutMs = 29999 + 1 := rfl
    obtain ⟨k1, k2, k3⟩ := ticksMs_keep rid (s.clock + requestTimeoutMs) 29999
      (registerRequest s rid) h1 h2 (by rw [hcl]; simp [requestTimeoutMs])
    rw [hsplit, ticksMs_back]
    have hdue : s.clock + requestTimeoutMs ≤ (ticksMs 29999 (registerRequest s rid)).clock + 1 := by
      rw [k3, hcl]
      simp [requestTimeoutMs]
    refine ⟨?_, ?_, ?_⟩
    · rw [pendCount]
      simp only [tickMs, countP_key_filter, k1]
      simp [List.filter, hdue]
    · simp only [resCount, tickMs, List.countP_append, countP_key_map_timedOut,
        countP_key_filter, k1]
      simp only [resCount] at k2
      simp [List.filter, hdue, k2]
    · have hmem : (rid, s.clock + requestTimeoutMs)
          ∈ (ticksMs 29999 (registerRequest s rid)).pending := by
        have : (rid, s.clock + requestTimeoutMs)
            ∈ (ticksMs 29999 (registerRequest s rid)).pending.filter
                (fun p => p.1 = rid) := by
          rw [k1]; exact List.mem_singleton.mpr rfl
        exact List.mem_of_mem_filter this
      simp only [tickMs]
      apply List.mem_append_right
      apply List.mem_map.mpr
      refine ⟨(rid, s.clock + requestTimeoutMs), ?_, rfl⟩
      exact List.mem_filter.mpr ⟨hmem, by simpa using hdue⟩

/-- Witness for claim C3: an empty correlator and a fresh id. -/
theorem c3_timeout_after_exact_window_witness :
    pendCount ⟨0, [], []⟩ "a" = 0
    ∧ resCount ⟨0, [], []⟩ "a" = 0
    ∧ ((∀ n, n < requestTimeoutMs →
        pendCount (ticksMs n (registerRequest ⟨0, [], []⟩ "a")) "a" = 1
        ∧ resCount (ticksMs n (registerRequest ⟨0, [], []⟩ "a")) "a" = 0)
      ∧ pendCount (ticksMs requestTimeoutMs (registerRequest ⟨0, [], []⟩ "a")) "a" = 0
      ∧ resCount (ticksMs requestTimeoutMs (registerRequest ⟨0, [], []⟩ "a")) "a" = 1
      ∧ ("a", ResolutionKind.timedOut)
          ∈ (ticksMs requestTimeoutMs (registerRequest ⟨0, [], []⟩ "a")).resolved) :=
  ⟨rfl, rfl, c3_timeout_after_exact_window ⟨0, [], []⟩ "a" rfl rfl⟩

/-! ## Round-trip lemmas for the codec -/

theorem decode_encode_sourceInfo (s : SourceInfo) :
    decodeSourceInfo (encodeSourceInfo s) = some s := by
  obtain ⟨n, p⟩ := s
  cases n <;> cases p <;>
    simp [encodeSourceInfo, decodeSourceInfo, optStr, getField, optField]

theorem decode_encode_stackFrame (fr : StackFrame) :
    decodeStackFrame (encodeStackFrame fr) = some fr := by
  obtain ⟨i, n, src, l, c⟩ := fr
  cases src with
  | none =>
    simp [encodeStackFrame, decodeStackFrame, reqNum, reqStr, optSource,
      getField, optField]
  | some s0 =>
    simp [encodeStackFrame, decodeStackFrame, reqNum, reqStr, optSource,
      getField, optField, decode_encode_sourceInfo]

theorem decode_encode_variableInfo (v : VariableInfo) :
    decodeVariableInfo (encodeVariableInfo v) = some v := by
  obtain ⟨n, vv, t, r⟩ := v
  cases t <;>
    simp [encodeVariableInfo, decodeVariableInfo, reqStr, optStr, reqNum,
      getField, optField]

theorem decodeArr_encode_frames (fs : List StackFrame) :
    decodeArr decodeStackFrame (fs.map encodeStackFrame) = some fs := by
  induction fs with
  | nil => rfl
  | cons f fs ih => simp [decodeArr, decode_encode_stackFrame, ih]

theorem decodeArr_encode_vars (vs : List VariableInfo) :
    decodeArr decodeVariableInfo (vs.map encodeVariableInfo) = some vs := by
  induction vs with
  | nil => rfl
  | cons v vs ih => simp [decodeArr, decode_encode_variableInfo, ih]

theorem decode_encode_request (r : Request) :
    decodeRequest (encodeRequest r) = some r := by
  cases r with
  | executeLldbCommand r0 =>
    obtain ⟨c, i, f⟩ := r0
    cases f <;>
      simp [encodeRequest, decodeRequest, decodeExecuteLldbCommandRequest,
        litStr, reqStr, optNum, getField, optField]
  | getStackTrace r0 =>
    simp [encodeRequest, decodeRequest, decodeExecuteLldbCommandRequest,
      decodeGetStackTraceRequest, litStr, reqNum, reqStr, getField]
  | getVariables r0 =>
    simp [encodeRequest, decodeRequest, decodeExecuteLldbCommandRequest,
      decodeGetStackTraceRequest, decodeGetVariablesRequest, litStr, reqNum,
      reqStr, getField]

theorem decode_encode_response (r : Response) :
    decodeResponse (encodeResponse r) = some r := by
  cases r with
  | executeLldbCommand r0 =>
    obtain ⟨s, res, e, i⟩ := r0
    cases res <;> cases e <;>
      simp [encodeResponse, decodeResponse, decodeExecuteLldbCommandResponse,
        litStr, reqBool, optStr, reqStr, getField, optField]
  | getStackTrace r0 =>
    obtain ⟨s, fs, e, i⟩ := r0
    cases fs <;> cases e <;>
      simp [encodeResponse, decodeResponse, decodeExecuteLldbCommandResponse,
        decodeGetStackTraceResponse, litStr, reqBool, optStr, reqStr, optFrames,
        getField, optField, decodeArr_encode_frames]
  | getVariables r0 =>
    obtain ⟨s, vs, e, i⟩ := r0
    cases vs <;> cases e <;>
      simp [encodeResponse, decodeResponse, decodeExecuteLldbCommandResponse,
        decodeGetStackTraceResponse, decodeGetVariablesResponse, litStr,
        reqBool, optStr, reqStr, optVars, getField, optField,
        decodeArr_encode_vars]

theorem decode_encode_event (e : Event) :
    decodeEvent (encodeEvent e) = some e := by
  cases e with
  | debuggerStopped e0 =>
    obtain ⟨r, t, d, a⟩ := e0
    cases d <;> cases a <;>
      simp [encodeEvent, decodeEvent, decodeDebuggerStoppedEvent, litStr,
        reqStr, reqNum, optStr, optBool, getField, optField]
  | debuggerContinued e0 =>
    obtain ⟨t, a⟩ := e0
    cases a <;>
      simp [encodeEvent, decodeEvent, decodeDebuggerStoppedEvent,
        decodeDebuggerContinuedEvent, litStr, reqStr, reqNum, optBool,
        getField, optField]

/-- An encoded response never parses under any request schema: the
request schemas demand the type literal request, an encoded response
carries the type literal response. -/
theorem decodeRequest_encodeResponse (r : Response) :
    decodeRequest (encodeResponse r) = none := by
  cases r <;>
    simp [encodeResponse, decodeRequest, decodeExecuteLldbCommandRequest,
      decodeGetStackTraceRequest, decodeGetVariablesRequest, litStr, getField]

/-- An encoded event never parses under any request schema. -/
theorem decodeRequest_encodeEvent (e : Event) :
    decodeRequest (encodeEvent e) = none := by
  cases e <;>
    simp [encodeEvent, decodeRequest, decodeExecuteLldbCommandRequest,
      decodeGetStackTraceRequest, decodeGetVariablesRequest, litStr, getField]

/-- An encoded event never parses under any response schema. -/
theorem decodeResponse_encodeEvent (e : Event) :
    decodeResponse (encodeEvent e) = none := by
  cases e <;>
    simp [encodeEvent, decodeResponse, decodeExecuteLldbCommandResponse,
      decodeGetStackTraceResponse, decodeGetVariablesResponse, litStr, getField]

/-- Claim C9: serializing a valid message of any of the three kinds and
parsing it back through the message schema succeeds and returns the
original value: no field is lost and no field changes type. -/
theorem c9_message_roundtrip (m : Message) :
    decodeMessage (encodeMessage m) = some m := by
  cases m with
  | request r =>
    simp [decodeMessage, encodeMessage, decode_encode_request]
  | response r =>
    simp [decodeMessage, encodeMessage, decodeRequest_encodeResponse,
      decode_encode_response]
  | event e =>
    simp [decodeMessage, encodeMessage, decodeRequest_encodeEvent,
      decodeResponse_encodeEvent, decode_encode_event]

/-- Claim C8: a malformed inbound frame (unparsable text, or JSON that
the message schema rejects) makes the listening role reply with exactly
one structural error object — discriminant error, not a protocol
response — while keeping its client set, and makes the connecting role
drop the frame with its correlator state and session state cache both
unchanged; both handlers are total, so neither role crashes. -/
theorem c8_malformed_frame_handling (sess : Option DebugSession)
    (clients : List Nat) (f : Frame) (corr : CorrState) (dbg : DebuggerState)
    (hm : malformed f = true) :
    (∃ e, serverHandleFrame sess clients f = ([.structuralError e], clients))
    ∧ clientHandleFrame corr dbg f = (corr, dbg) := by
  cases f with
  | notJson raw => exact ⟨⟨"Failed to process message", rfl⟩, rfl⟩
  | jsonVal j =>
    have hd : decodeMessage j = none := by
      simpa [malformed, Option.isNone_iff_eq_none] using hm
    exact ⟨⟨"Invalid message format", by simp [serverHandleFrame, hd]⟩,
      by simp [clientHandleFrame, hd]⟩

/-- Witness for claim C8: a frame whose JSON object lacks every
discriminant the schema requires. -/
theorem c8_malformed_frame_handling_witness :
    malformed (.jsonVal (.obj [("type", .str "request")])) = true
    ∧ ((∃ e, serverHandleFrame none [7] (.jsonVal (.obj [("type", .str "request")]))
          = ([.structuralError e], [7]))
      ∧ clientHandleFrame ⟨0, [], []⟩ initialDebuggerState
          (.jsonVal (.obj [("type", .str "request")]))
          = (⟨0, [], []⟩, initialDebuggerState)) :=
  ⟨rfl, c8_malformed_frame_handling none [7] _ ⟨0, [], []⟩ initialDebuggerState rfl⟩

end Mcpdbg
